import Mathlib

/-!
Verification development for the parametric building configurator core:
a shallow embedding of the domain model (MaterialLayer, Window, Wall, Room,
Project), the material calculator and the code validator from
`parametric_building_configurator.py` (namespace `PBC`) and from `api.py`
(namespace `Api`), together with theorems about them.

Numeric fields are modelled as rationals; Python `int(...)` truncation is
modelled by `pyInt`, Python float `repr` formatting (for the terminating
decimals that occur here) by `pyFloatRepr`, and Python fixed-point
formatting such as `"%.2f"` by `fmtFixed`.
-/

/-! ### Domain enumerations -/

/-- Standard wood framing configurations (`FramingType` enum). -/
inductive FramingType
| stud2x4_16oc
| stud2x4_24oc
| stud2x6_16oc
| stud2x6_24oc
deriving DecidableEq, BEq, Repr

/-- The Python enum value string of a framing type. -/
def FramingType.value : FramingType → String
| .stud2x4_16oc => "2x4 @ 16oc"
| .stud2x4_24oc => "2x4 @ 24oc"
| .stud2x6_16oc => "2x6 @ 16oc"
| .stud2x6_24oc => "2x6 @ 24oc"

/-- IRC room classifications (`RoomType` enum). -/
inductive RoomType
| bedroom
| kitchen
| bathroom
| living
| utility
deriving DecidableEq, BEq, Repr

/-- The Python enum value string of a room type. -/
def RoomType.value : RoomType → String
| .bedroom => "Bedroom"
| .kitchen => "Kitchen"
| .bathroom => "Bathroom"
| .living => "Living Room"
| .utility => "Utility"

/-- IECC climate zone classifications (`ClimateZone` enum). -/
inductive ClimateZone
| zone1
| zone2
| zone3
| zone4
| zone5
| zone6
| zone7
| zone8
deriving DecidableEq, BEq, Repr

/-- The Python enum value integer of a climate zone. -/
def ClimateZone.value : ClimateZone → ℕ
| .zone1 => 1
| .zone2 => 2
| .zone3 => 3
| .zone4 => 4
| .zone5 => 5
| .zone6 => 6
| .zone7 => 7
| .zone8 => 8

/-! ### Python-arithmetic and formatting helpers -/

/-- Python `int(q)`: truncation toward zero. -/
def pyInt (q : ℚ) : ℤ := if 0 ≤ q then ⌊q⌋ else ⌈q⌉

/-- Decimal expansion digits of `num/den` after the point, `k` digits. -/
def decDigits : ℕ → ℕ → ℕ → List ℕ
| 0, _, _ => []
| k + 1, num, den => (num * 10 / den) :: decDigits k (num * 10 % den) den

/-- Drop trailing zero digits but keep at least one digit. -/
def stripTrailZeros (l : List ℕ) : List ℕ :=
  let r := (l.reverse.dropWhile (fun d => d == 0)).reverse
  if r.isEmpty then [0] else r

/-- Render a list of decimal digits as a string. -/
def digitsToStr (l : List ℕ) : String :=
  String.join (l.map (fun d => toString d))

/-- Python `repr` of a float holding the rational `q`, for the terminating
decimal values that occur in this program (shortest decimal with at least
one fractional digit, e.g. `6.5`, `7.0`). -/
def pyFloatRepr (q : ℚ) : String :=
  let sign := if q < 0 then "-" else ""
  let n := q.num.natAbs
  let d := q.den
  sign ++ toString (n / d) ++ "." ++ digitsToStr (stripTrailZeros (decDigits 17 (n % d) d))

/-- Pad a numeral string with leading zeros to width `w`. -/
def padZeros (w : ℕ) (s : String) : String :=
  String.mk (List.replicate (w - s.length) '0') ++ s

/-- Python fixed-point formatting `"%.{places}f"` of the rational `q`
(rounding at the last kept digit). -/
def fmtFixed (places : ℕ) (q : ℚ) : String :=
  let scaled : ℤ := ⌊q * (10 : ℚ) ^ places + 1 / 2⌋
  let sign := if scaled < 0 then "-" else ""
  let m := scaled.natAbs
  sign ++ toString (m / 10 ^ places) ++ "." ++ padZeros places (toString (m % 10 ^ places))

/-- Two-decimal formatting, Python `"{x:.2f}"`. -/
def fmt2 (q : ℚ) : String := fmtFixed 2 q

/-- One-decimal formatting, Python `"{x:.1f}"`. -/
def fmt1 (q : ℚ) : String := fmtFixed 1 q

/-- Check whether `pat` is a prefix of `l` (character lists). -/
def isPrefixChars : List Char → List Char → Bool
| [], _ => true
| _ :: _, [] => false
| c :: cs, d :: ds => c == d && isPrefixChars cs ds

/-- Check whether `pat` occurs as a contiguous sublist of `l`. -/
def isSubChars : List Char → List Char → Bool
| pat, [] => pat.isEmpty
| pat, d :: ds => isPrefixChars pat (d :: ds) || isSubChars pat ds

/-- Python `pat in s` on strings: contiguous-substring containment. -/
def strContains (s pat : String) : Bool := isSubChars pat.toList s.toList

/-! ### Data model -/

/-- One material ply in a wall assembly. -/
structure MaterialLayer where
  name : String
  thickness_inches : ℚ
  r_value : ℚ
deriving DecidableEq, Repr

/-- Window component with egress and thermal properties. -/
structure Window where
  width_inches : ℚ
  height_inches : ℚ
  u_factor : ℚ
  window_type : String := "Double-Hung"
deriving DecidableEq, Repr

/-- Total window area in square feet: `width*height/144`. -/
def Window.area_sqft (w : Window) : ℚ :=
  w.width_inches * w.height_inches / 144

/-- IRC clear opening for egress: 90% of total area. -/
def Window.clear_opening_sqft (w : Window) : ℚ :=
  w.area_sqft * (9 / 10)

/-- Wall component with framing, layers and openings. -/
structure Wall where
  length_feet : ℚ
  height_feet : ℚ
  framing_type : FramingType
  is_exterior : Bool
  layers : List MaterialLayer := []
  windows : List Window := []
deriving DecidableEq, Repr

/-- Gross wall area. -/
def Wall.area_sqft (w : Wall) : ℚ := w.length_feet * w.height_feet

/-- Wall area minus window openings. -/
def Wall.net_area_sqft (w : Wall) : ℚ :=
  w.area_sqft - (w.windows.map Window.area_sqft).sum

/-- Total thermal resistance of the wall assembly (series sum). -/
def Wall.total_r_value (w : Wall) : ℚ :=
  (w.layers.map MaterialLayer.r_value).sum

/-- Stud spacing extracted from the framing-type value string, with the
source's permissive default of 16. -/
def studSpacingOfFraming (ft : FramingType) : ℤ :=
  if strContains ft.value "16oc" then 16
  else if strContains ft.value "24oc" then 24
  else 16

/-- Stud spacing of a wall, read off its framing type. -/
def Wall.stud_spacing_inches (w : Wall) : ℤ :=
  studSpacingOfFraming w.framing_type

/-- Room assembly containing walls. -/
structure Room where
  room_type : RoomType
  ceiling_height_feet : ℚ
  walls : List Wall := []
deriving DecidableEq, Repr

/-- Approximate floor area from the first two walls. -/
def Room.total_floor_area_sqft (r : Room) : ℚ :=
  match r.walls with
  | w0 :: w1 :: _ => w0.length_feet * w1.length_feet
  | _ => 0

/-- Collect all windows from all walls, wall order then per-wall order. -/
def Room.get_all_windows (r : Room) : List Window :=
  (r.walls.map Wall.windows).flatten

/-- Project context driving code-compliance decisions. -/
structure Project where
  name : String
  location_zip : String
  climate_zone : ClimateZone
  rooms : List Room := []
deriving DecidableEq, Repr

/-! ### Material quantity record -/

/-- The quantity-takeoff record: exactly the eight keys the Python
calculators put in their result dictionary. -/
structure Materials where
  studs_count : ℤ
  stud_linear_feet : ℚ
  top_plate_lf : ℚ
  bottom_plate_lf : ℚ
  sheathing_sqft : ℚ
  drywall_sqft : ℚ
  insulation_sqft : ℚ
  gravel_cubic_yards : ℚ
deriving DecidableEq, Repr

/-- The all-zero quantity record (the loop accumulator's initial value). -/
def Materials.zero : Materials :=
  { studs_count := 0, stud_linear_feet := 0, top_plate_lf := 0,
    bottom_plate_lf := 0, sheathing_sqft := 0, drywall_sqft := 0,
    insulation_sqft := 0, gravel_cubic_yards := 0 }

/-- Field-by-field addition of quantity records. -/
def Materials.add (a b : Materials) : Materials :=
  { studs_count := a.studs_count + b.studs_count,
    stud_linear_feet := a.stud_linear_feet + b.stud_linear_feet,
    top_plate_lf := a.top_plate_lf + b.top_plate_lf,
    bottom_plate_lf := a.bottom_plate_lf + b.bottom_plate_lf,
    sheathing_sqft := a.sheathing_sqft + b.sheathing_sqft,
    drywall_sqft := a.drywall_sqft + b.drywall_sqft,
    insulation_sqft := a.insulation_sqft + b.insulation_sqft,
    gravel_cubic_yards := a.gravel_cubic_yards + b.gravel_cubic_yards }

/-- Compliance finding record (`ValidationError` in the configurator file,
`ComplianceResult` in the API file: same shape). -/
structure ValidationError where
  code : String
  severity : String
  message : String
  component : Option String := none
deriving DecidableEq, Repr

/-! ### Material calculator and code validator from `parametric_building_configurator.py` -/

namespace PBC

/-- Materials for a single wall assembly
(`MaterialCalculator.calculate_wall_materials`). -/
def calculate_wall_materials (wall : Wall) : Materials :=
  let num_studs_vertical : ℤ :=
    pyInt (wall.length_feet * 12 / (wall.stud_spacing_inches : ℚ)) + 1
  let num_studs_plates : ℤ := 3
  let total_studs : ℤ := num_studs_vertical + num_studs_plates
  { studs_count := total_studs,
    stud_linear_feet := (total_studs : ℚ) * wall.height_feet,
    top_plate_lf := wall.length_feet * 2,
    bottom_plate_lf := wall.length_feet,
    sheathing_sqft := wall.area_sqft,
    drywall_sqft := wall.area_sqft,
    insulation_sqft := wall.net_area_sqft,
    gravel_cubic_yards :=
      if wall.is_exterior then wall.length_feet * 2 * (1 / 2) / 27 else 0 }

/-- Aggregate materials for a room
(`MaterialCalculator.calculate_room_materials`): running totals starting
from zero, adding each wall's record field by field. -/
def calculate_room_materials (room : Room) : Materials :=
  room.walls.foldl (fun totals wall => totals.add (calculate_wall_materials wall))
    Materials.zero

/-- IECC R-value requirements by climate zone (`IECC_RVALUE_REQUIREMENTS`). -/
def IECC_RVALUE_REQUIREMENTS : List (ClimateZone × ℤ) :=
  [(ClimateZone.zone1, 13), (ClimateZone.zone2, 13), (ClimateZone.zone3, 13),
   (ClimateZone.zone4, 15), (ClimateZone.zone5, 20), (ClimateZone.zone6, 20),
   (ClimateZone.zone7, 21), (ClimateZone.zone8, 21)]

/-- Required R-value lookup with the dictionary-get fallback of 20. -/
def requiredRValue (z : ClimateZone) : ℤ :=
  (List.lookup z IECC_RVALUE_REQUIREMENTS).getD 20

/-- IRC R305.1 minimum ceiling height check (`_check_ceiling_height`). -/
def check_ceiling_height (room : Room) : List ValidationError :=
  if room.ceiling_height_feet < 7 then
    [{ code := "IRC R305.1", severity := "ERROR",
       message := "Ceiling height " ++ pyFloatRepr room.ceiling_height_feet
                  ++ "ft is below minimum " ++ pyFloatRepr 7 ++ "ft",
       component := some room.room_type.value }]
  else []

/-- IRC R310.1 bedroom egress check (`_check_bedroom_egress`): the for-loop
with break is an existence check over the windows, and the cited largest
opening is the maximum over all windows. -/
def check_bedroom_egress (room : Room) : List ValidationError :=
  match room.get_all_windows with
  | [] =>
      [{ code := "IRC R310.1", severity := "ERROR",
         message := "Bedroom requires at least one egress window",
         component := some room.room_type.value }]
  | w :: ws =>
      if (w :: ws).any (fun x => decide ((57 : ℚ) / 10 ≤ x.clear_opening_sqft)) then []
      else
        [{ code := "IRC R310.1", severity := "ERROR",
           message := "No window meets egress requirement. Required: "
                      ++ pyFloatRepr ((57 : ℚ) / 10) ++ " sq ft, Largest found: "
                      ++ fmt2 (ws.foldl (fun m x => max m x.clear_opening_sqft)
                                 w.clear_opening_sqft)
                      ++ " sq ft",
           component := some room.room_type.value }]

/-- The finding emitted for one offending exterior wall in the thermal check. -/
def thermalFinding (required : ℤ) (zone : ClimateZone) (i : ℕ) (wall : Wall) :
    ValidationError :=
  { code := "IECC R402.1", severity := "ERROR",
    message := "Exterior wall R-value " ++ fmt1 wall.total_r_value
               ++ " below required " ++ toString required
               ++ " for Climate Zone " ++ toString zone.value,
    component := some ("Wall #" ++ toString (i + 1) ++ " ("
                        ++ wall.framing_type.value ++ ")") }

/-- The enumerated wall loop of `_check_thermal_envelope`, carrying the
0-based index. -/
def check_thermal_walls (required : ℤ) (zone : ClimateZone) :
    ℕ → List Wall → List ValidationError
| _, [] => []
| i, wall :: rest =>
    (if wall.is_exterior then
       (if wall.total_r_value < (required : ℚ) then [thermalFinding required zone i wall]
        else [])
     else [])
      ++ check_thermal_walls required zone (i + 1) rest

/-- IECC R402.1 thermal envelope check (`_check_thermal_envelope`). -/
def check_thermal_envelope (room : Room) (project : Project) : List ValidationError :=
  check_thermal_walls (requiredRValue project.climate_zone) project.climate_zone 0
    room.walls

/-- Run all code compliance checks for a room (`CodeValidator.validate_room`). -/
def validate_room (room : Room) (project : Project) : List ValidationError :=
  check_ceiling_height room
    ++ (if room.room_type = RoomType.bedroom then check_bedroom_egress room else [])
    ++ check_thermal_envelope room project

end PBC

/-! ### Material calculator and code validator from `api.py` -/

namespace Api

/-- Materials for a single wall assembly (`calculate_wall_materials` in
`api.py`; its `stud_spacing_inches` isinstance branches collapse to the
same substring test). -/
def calculate_wall_materials (wall : Wall) : Materials :=
  let num_studs_vertical : ℤ :=
    pyInt (wall.length_feet * 12 / (wall.stud_spacing_inches : ℚ)) + 1
  let num_studs_plates : ℤ := 3
  let total_studs : ℤ := num_studs_vertical + num_studs_plates
  { studs_count := total_studs,
    stud_linear_feet := (total_studs : ℚ) * wall.height_feet,
    top_plate_lf := wall.length_feet * 2,
    bottom_plate_lf := wall.length_feet,
    sheathing_sqft := wall.area_sqft,
    drywall_sqft := wall.area_sqft,
    insulation_sqft := wall.net_area_sqft,
    gravel_cubic_yards :=
      if wall.is_exterior then wall.length_feet * 2 * (1 / 2) / 27 else 0 }

/-- Aggregate materials for a room (`calculate_room_materials` in `api.py`). -/
def calculate_room_materials (room : Room) : Materials :=
  room.walls.foldl (fun totals wall => totals.add (calculate_wall_materials wall))
    Materials.zero

/-- Aggregate materials for an entire project
(`calculate_project_materials` in `api.py`). -/
def calculate_project_materials (project : Project) : Materials :=
  project.rooms.foldl (fun totals room => totals.add (calculate_room_materials room))
    Materials.zero

/-- IECC R-value requirements by climate zone (`api.py` copy). -/
def IECC_RVALUE_REQUIREMENTS : List (ClimateZone × ℤ) :=
  [(ClimateZone.zone1, 13), (ClimateZone.zone2, 13), (ClimateZone.zone3, 13),
   (ClimateZone.zone4, 15), (ClimateZone.zone5, 20), (ClimateZone.zone6, 20),
   (ClimateZone.zone7, 21), (ClimateZone.zone8, 21)]

/-- Required R-value lookup with the dictionary-get fallback of 20. -/
def requiredRValue (z : ClimateZone) : ℤ :=
  (List.lookup z IECC_RVALUE_REQUIREMENTS).getD 20

/-- IRC R305.1 minimum ceiling height check (`api.py` copy). -/
def check_ceiling_height (room : Room) : List ValidationError :=
  if room.ceiling_height_feet < 7 then
    [{ code := "IRC R305.1", severity := "ERROR",
       message := "Ceiling height " ++ pyFloatRepr room.ceiling_height_feet
                  ++ "ft is below minimum " ++ pyFloatRepr 7 ++ "ft",
       component := some room.room_type.value }]
  else []

/-- IRC R310.1 bedroom egress check (`api.py` copy). -/
def check_bedroom_egress (room : Room) : List ValidationError :=
  match room.get_all_windows with
  | [] =>
      [{ code := "IRC R310.1", severity := "ERROR",
         message := "Bedroom requires at least one egress window",
         component := some room.room_type.value }]
  | w :: ws =>
      if (w :: ws).any (fun x => decide ((57 : ℚ) / 10 ≤ x.clear_opening_sqft)) then []
      else
        [{ code := "IRC R310.1", severity := "ERROR",
           message := "No window meets egress requirement. Required: "
                      ++ pyFloatRepr ((57 : ℚ) / 10) ++ " sq ft, Largest found: "
                      ++ fmt2 (ws.foldl (fun m x => max m x.clear_opening_sqft)
                                 w.clear_opening_sqft)
                      ++ " sq ft",
           component := some room.room_type.value }]

/-- The finding emitted for one offending exterior wall (`api.py` copy). -/
def thermalFinding (required : ℤ) (zone : ClimateZone) (i : ℕ) (wall : Wall) :
    ValidationError :=
  { code := "IECC R402.1", severity := "ERROR",
    message := "Exterior wall R-value " ++ fmt1 wall.total_r_value
               ++ " below required " ++ toString required
               ++ " for Climate Zone " ++ toString zone.value,
    component := some ("Wall #" ++ toString (i + 1) ++ " ("
                        ++ wall.framing_type.value ++ ")") }

/-- The enumerated wall loop of `_check_thermal_envelope` (`api.py` copy). -/
def check_thermal_walls (required : ℤ) (zone : ClimateZone) :
    ℕ → List Wall → List ValidationError
| _, [] => []
| i, wall :: rest =>
    (if wall.is_exterior then
       (if wall.total_r_value < (required : ℚ) then [thermalFinding required zone i wall]
        else [])
     else [])
      ++ check_thermal_walls required zone (i + 1) rest

/-- IECC R402.1 thermal envelope check (`api.py` copy). -/
def check_thermal_envelope (room : Room) (project : Project) : List ValidationError :=
  check_thermal_walls (requiredRValue project.climate_zone) project.climate_zone 0
    room.walls

/-- Run all code compliance checks for a room (`validate_room` in `api.py`). -/
def validate_room (room : Room) (project : Project) : List ValidationError :=
  check_ceiling_height room
    ++ (if room.room_type = RoomType.bedroom then check_bedroom_egress room else [])
    ++ check_thermal_envelope room project

/-- Rewrite one finding's component with the room context, as
`validate_project` does; Python truthiness makes `None` and the empty
string both take the label-alone branch. -/
def addRoomContext (idx : ℕ) (room : Room) (e : ValidationError) : ValidationError :=
  match e.component with
  | some c =>
      if c == "" then
        { e with component := some ("Room " ++ toString (idx + 1) ++ " ("
                                     ++ room.room_type.value ++ ")") }
      else
        { e with component := some ("Room " ++ toString (idx + 1) ++ " ("
                                     ++ room.room_type.value ++ ")" ++ " - " ++ c) }
  | none =>
      { e with component := some ("Room " ++ toString (idx + 1) ++ " ("
                                   ++ room.room_type.value ++ ")") }

/-- The enumerated room loop of `validate_project`, carrying the 0-based
room index. -/
def validate_project_go (project : Project) : ℕ → List Room → List ValidationError
| _, [] => []
| idx, room :: rest =>
    (validate_room room project).map (addRoomContext idx room)
      ++ validate_project_go project (idx + 1) rest

/-- Run all code compliance checks for an entire project
(`CodeValidator.validate_project` in `api.py`). -/
def validate_project (project : Project) : List ValidationError :=
  validate_project_go project 0 project.rooms

end Api

/-! ### Data Model invariants and auxiliary definitions for the theorems -/

/-- Data Model invariant for a window: positive dimensions,
`0 < u_factor <= 2`. -/
def WindowInv (w : Window) : Prop :=
  0 < w.width_inches ∧ 0 < w.height_inches ∧ 0 < w.u_factor ∧ w.u_factor ≤ 2

/-- Data Model invariant for a material layer: positive thickness,
nonnegative R-value. -/
def LayerInv (l : MaterialLayer) : Prop :=
  0 < l.thickness_inches ∧ 0 ≤ l.r_value

/-- Data Model invariant for a wall: positive length, height in `[6, 20]`,
valid layers and windows. -/
def WallInv (w : Wall) : Prop :=
  0 < w.length_feet ∧ 6 ≤ w.height_feet ∧ w.height_feet ≤ 20 ∧
    (∀ l ∈ w.layers, LayerInv l) ∧ (∀ win ∈ w.windows, WindowInv win)

/-- Data Model invariant for a room: positive ceiling height, non-empty
wall list, valid walls. -/
def RoomInv (r : Room) : Prop :=
  0 < r.ceiling_height_feet ∧ r.walls ≠ [] ∧ ∀ w ∈ r.walls, WallInv w

/-- Data Model invariant for a project: non-empty room list, valid rooms. -/
def ProjectInv (p : Project) : Prop :=
  p.rooms ≠ [] ∧ ∀ r ∈ p.rooms, RoomInv r

/-- Field-by-field sum of a list of quantity records. -/
def Materials.msum (l : List Materials) : Materials :=
  l.foldr Materials.add Materials.zero

/-- A concrete invariant-satisfying wall used to witness the wall-material
formulas. -/
def c3Wall : Wall :=
  { length_feet := 12, height_feet := 8,
    framing_type := FramingType.stud2x6_16oc, is_exterior := true }

/-- A window far larger than the wall that carries it. -/
def c9Window : Window :=
  { width_inches := 100, height_inches := 100, u_factor := 1 / 2 }

/-- A small invariant-satisfying wall whose single window's area exceeds
the wall's gross area. -/
def c9Wall : Wall :=
  { length_feet := 6, height_feet := 6,
    framing_type := FramingType.stud2x4_16oc, is_exterior := true,
    windows := [c9Window] }

/-- An interior wall for the fully compliant demonstration project. -/
def c8Wall : Wall :=
  { length_feet := 10, height_feet := 8,
    framing_type := FramingType.stud2x4_16oc, is_exterior := false }

/-- A compliant utility room. -/
def c8Room : Room :=
  { room_type := RoomType.utility, ceiling_height_feet := 8, walls := [c8Wall] }

/-- A fully compliant invariant-satisfying project: validation returns the
empty findings list on it. -/
def c8Project : Project :=
  { name := "Demo", location_zip := "04101",
    climate_zone := ClimateZone.zone6, rooms := [c8Room] }

/-! ### Helper lemmas -/

/-- Adding the zero record on the right is the identity. -/
theorem Materials.add_zero_right (m : Materials) : m.add Materials.zero = m := by
  simp [Materials.add, Materials.zero]

/-- Record addition is associative. -/
theorem Materials.add_assoc_right (a b c : Materials) :
    (a.add b).add c = a.add (b.add c) := by
  simp [Materials.add, add_assoc]

/-- Unfolding of the field-by-field sum on a cons. -/
theorem Materials.msum_cons (m : Materials) (l : List Materials) :
    Materials.msum (m :: l) = m.add (Materials.msum l) := rfl

/-- The running-total loop equals the accumulator plus the field-by-field
sum of the mapped list. -/
theorem foldl_add_msum {α : Type} (f : α → Materials) (l : List α) (acc : Materials) :
    l.foldl (fun t x => t.add (f x)) acc = acc.add (Materials.msum (l.map f)) := by
  induction l generalizing acc with
  | nil => simp [Materials.msum, Materials.add_zero_right]
  | cons x xs ih =>
      simp [List.foldl_cons, ih, Materials.msum_cons, Materials.add_assoc_right]

/-- Every field of a field-by-field sum is the sum of that field. -/
theorem msum_fields (l : List Materials) :
    (Materials.msum l).studs_count = (l.map Materials.studs_count).sum ∧
    (Materials.msum l).stud_linear_feet = (l.map Materials.stud_linear_feet).sum ∧
    (Materials.msum l).top_plate_lf = (l.map Materials.top_plate_lf).sum ∧
    (Materials.msum l).bottom_plate_lf = (l.map Materials.bottom_plate_lf).sum ∧
    (Materials.msum l).sheathing_sqft = (l.map Materials.sheathing_sqft).sum ∧
    (Materials.msum l).drywall_sqft = (l.map Materials.drywall_sqft).sum ∧
    (Materials.msum l).insulation_sqft = (l.map Materials.insulation_sqft).sum ∧
    (Materials.msum l).gravel_cubic_yards = (l.map Materials.gravel_cubic_yards).sum := by
  induction l with
  | nil => simp [Materials.msum, Materials.zero]
  | cons m l ih =>
      obtain ⟨h1, h2, h3, h4, h5, h6, h7, h8⟩ := ih
      simp [Materials.msum_cons, Materials.add, h1, h2, h3, h4, h5, h6, h7, h8]

/-- The float repr of 7 is the string cited by the ceiling message. -/
theorem pyFloatRepr_seven : pyFloatRepr 7 = "7.0" := by
  have hn : ((7 : ℚ)).num = 7 := by norm_num
  have hd : ((7 : ℚ)).den = 1 := by norm_num
  have hs : ¬((7 : ℚ) < 0) := by norm_num
  simp only [pyFloatRepr, hn, hd, if_neg hs]
  rfl

/-- The float repr of the egress threshold 5.7. -/
theorem pyFloatRepr_fiveSeven : pyFloatRepr ((57 : ℚ) / 10) = "5.7" := by
  have hn : ((57 : ℚ) / 10).num = 57 := by norm_num
  have hd : ((57 : ℚ) / 10).den = 10 := by norm_num
  have hs : ¬((57 : ℚ) / 10 < 0) := by norm_num
  simp only [pyFloatRepr, hn, hd, if_neg hs]
  rfl

/-- Stud spacing is always positive (it is 16 or 24). -/
theorem studSpacing_pos (ft : FramingType) : 0 < studSpacingOfFraming ft := by
  cases ft <;> decide

/-- A string starting with the wall tag is never empty. -/
theorem wallTag_ne_empty (s : String) : ("Wall #" ++ s) ≠ "" := by
  intro h
  have h2 := congrArg String.length h
  simp [String.length_append] at h2
  exact (by decide : ¬("Wall #".length = 0)) h2.1

/-- The value string of a room type is never empty. -/
theorem roomTypeValue_ne_empty (rt : RoomType) : rt.value ≠ "" := by
  cases rt <;> decide

/-- Every ceiling-height finding carries code IRC R305.1. -/
theorem pbc_ceiling_code {room : Room} {e : ValidationError}
    (he : e ∈ PBC.check_ceiling_height room) : e.code = "IRC R305.1" := by
  unfold PBC.check_ceiling_height at he
  split at he
  · simp at he; subst he; rfl
  · simp at he

/-- Every bedroom-egress finding carries code IRC R310.1. -/
theorem pbc_egress_code {room : Room} {e : ValidationError}
    (he : e ∈ PBC.check_bedroom_egress room) : e.code = "IRC R310.1" := by
  unfold PBC.check_bedroom_egress at he
  split at he
  · simp at he; subst he; rfl
  · split at he
    · simp at he
    · simp at he; subst he; rfl

/-- Every thermal-envelope finding carries code IECC R402.1. -/
theorem pbc_thermal_code (req : ℤ) (z : ClimateZone) :
    ∀ (walls : List Wall) (i : ℕ) (e : ValidationError),
      e ∈ PBC.check_thermal_walls req z i walls → e.code = "IECC R402.1" := by
  intro walls
  induction walls with
  | nil => intro i e he; simp [PBC.check_thermal_walls] at he
  | cons w ws ih =>
      intro i e he
      simp only [PBC.check_thermal_walls, List.mem_append] at he
      rcases he with h | h
      · split at h
        · split at h
          · simp at h; subst h; rfl
          · simp at h
        · simp at h
      · exact ih (i + 1) e h

/-- Membership version for the wrapped thermal check. -/
theorem pbc_thermal_env_code {room : Room} {project : Project} {e : ValidationError}
    (he : e ∈ PBC.check_thermal_envelope room project) : e.code = "IECC R402.1" :=
  pbc_thermal_code _ _ room.walls 0 e he

/-- Filtering a room's findings by the egress code keeps exactly the
egress check's output. -/
theorem pbc_filter_egress (room : Room) (project : Project) :
    (PBC.validate_room room project).filter (fun e => e.code == "IRC R310.1") =
      (if room.room_type = RoomType.bedroom then PBC.check_bedroom_egress room else []) := by
  have hceil : (PBC.check_ceiling_height room).filter (fun e => e.code == "IRC R310.1") = [] :=
    List.filter_eq_nil_iff.mpr (fun e he => by rw [pbc_ceiling_code he]; decide)
  have hth : (PBC.check_thermal_envelope room project).filter
      (fun e => e.code == "IRC R310.1") = [] :=
    List.filter_eq_nil_iff.mpr (fun e he => by rw [pbc_thermal_env_code he]; decide)
  have hegr : ((if room.room_type = RoomType.bedroom then PBC.check_bedroom_egress room
      else []) : List ValidationError).filter (fun e => e.code == "IRC R310.1") =
      (if room.room_type = RoomType.bedroom then PBC.check_bedroom_egress room else []) := by
    split
    · exact List.filter_eq_self.mpr (fun e he => by rw [pbc_egress_code he]; decide)
    · rfl
  unfold PBC.validate_room
  rw [List.filter_append, List.filter_append, hceil, hth, hegr, List.append_nil,
    List.nil_append]

/-- Filtering a room's findings by the ceiling code keeps exactly the
ceiling check's output. -/
theorem pbc_filter_ceiling (room : Room) (project : Project) :
    (PBC.validate_room room project).filter (fun e => e.code == "IRC R305.1") =
      PBC.check_ceiling_height room := by
  have hceil : (PBC.check_ceiling_height room).filter (fun e => e.code == "IRC R305.1") =
      PBC.check_ceiling_height room :=
    List.filter_eq_self.mpr (fun e he => by rw [pbc_ceiling_code he]; decide)
  have hth : (PBC.check_thermal_envelope room project).filter
      (fun e => e.code == "IRC R305.1") = [] :=
    List.filter_eq_nil_iff.mpr (fun e he => by rw [pbc_thermal_env_code he]; decide)
  have hegr : ((if room.room_type = RoomType.bedroom then PBC.check_bedroom_egress room
      else []) : List ValidationError).filter (fun e => e.code == "IRC R305.1") = [] := by
    split
    · exact List.filter_eq_nil_iff.mpr (fun e he => by rw [pbc_egress_code he]; decide)
    · rfl
  unfold PBC.validate_room
  rw [List.filter_append, List.filter_append, hceil, hth, hegr, List.append_nil,
    List.append_nil]

/-- The egress check's output under a Bedroom room type, with the message
prefix and component in fully literal form. -/
theorem pbc_egress_of_bedroom (room : Room) (h : room.room_type = RoomType.bedroom) :
    PBC.check_bedroom_egress room =
      (match room.get_all_windows with
       | [] => [{ code := "IRC R310.1", severity := "ERROR",
                  message := "Bedroom requires at least one egress window",
                  component := some "Bedroom" }]
       | w :: ws =>
           if (w :: ws).any (fun x => decide ((57 : ℚ) / 10 ≤ x.clear_opening_sqft)) then []
           else
             [{ code := "IRC R310.1", severity := "ERROR",
                message := "No window meets egress requirement. Required: 5.7 sq ft, Largest found: "
                  ++ fmt2 (ws.foldl (fun m x => max m x.clear_opening_sqft)
                       w.clear_opening_sqft)
                  ++ " sq ft",
                component := some "Bedroom" }]) := by
  unfold PBC.check_bedroom_egress
  cases hw : room.get_all_windows with
  | nil => simp [h, RoomType.value]
  | cons w ws =>
      by_cases hc : ((w :: ws).any fun x => decide ((57 : ℚ) / 10 ≤ x.clear_opening_sqft)) = true
      · simp [hc]
      · simp only [Bool.not_eq_true] at hc
        simp [hc, h, pyFloatRepr_fiveSeven, String.append_assoc, RoomType.value]

/-- The indexed thermal loop as a filterMap over enumerated walls. -/
theorem pbc_thermal_filterMap (req : ℤ) (z : ClimateZone) :
    ∀ (walls : List Wall) (i : ℕ),
      PBC.check_thermal_walls req z i walls =
        (List.enumFrom i walls).filterMap (fun p =>
          if p.2.is_exterior = true ∧ p.2.total_r_value < (req : ℚ)
          then some (PBC.thermalFinding req z p.1 p.2) else none) := by
  intro walls
  induction walls with
  | nil => intro i; simp [PBC.check_thermal_walls]
  | cons w ws ih =>
      intro i
      simp only [PBC.check_thermal_walls, List.enumFrom_cons, List.filterMap_cons,
        ih (i + 1)]
      by_cases hx : w.is_exterior = true
      · by_cases hr : w.total_r_value < (req : ℚ)
        · simp [hx, hr]
        · simp [hx, hr]
      · simp [hx]

/-- A string ending in a closing parenthesis is never empty. -/
theorem append_paren_ne_empty (a : String) : (a ++ ")") ≠ "" := by
  intro h
  have h2 := congrArg String.length h
  rw [String.length_append] at h2
  have h3 : (")" : String).length = 1 := rfl
  have h0 : ("" : String).length = 0 := rfl
  rw [h3, h0] at h2
  omega

/-- Every thermal finding from the API validator has a non-empty component. -/
theorem api_thermal_component (req : ℤ) (z : ClimateZone) :
    ∀ (walls : List Wall) (i : ℕ) (e : ValidationError),
      e ∈ Api.check_thermal_walls req z i walls →
        ∃ c, e.component = some c ∧ c ≠ "" := by
  intro walls
  induction walls with
  | nil => intro i e he; simp [Api.check_thermal_walls] at he
  | cons w ws ih =>
      intro i e he
      simp only [Api.check_thermal_walls, List.mem_append] at he
      rcases he with h | h
      · split at h
        · split at h
          · simp at h; subst h
            exact ⟨_, rfl, append_paren_ne_empty _⟩
          · simp at h
        · simp at h
      · exact ih (i + 1) e h

/-- Every finding from the API room validator carries a non-empty
component string (so the project-level rewrite always appends). -/
theorem api_component_of_mem (room : Room) (project : Project) :
    ∀ e ∈ Api.validate_room room project, ∃ c, e.component = some c ∧ c ≠ "" := by
  intro e he
  unfold Api.validate_room at he
  simp only [List.mem_append] at he
  rcases he with (h | h) | h
  · unfold Api.check_ceiling_height at h
    split at h
    · simp at h; subst h
      exact ⟨_, rfl, roomTypeValue_ne_empty _⟩
    · simp at h
  · split at h
    · unfold Api.check_bedroom_egress at h
      split at h
      · simp at h; subst h
        exact ⟨_, rfl, roomTypeValue_ne_empty _⟩
      · split at h
        · simp at h
        · simp at h; subst h
          exact ⟨_, rfl, roomTypeValue_ne_empty _⟩
    · simp at h
  · exact api_thermal_component _ _ room.walls 0 e h

/-- The project-validation loop as a flattened map over enumerated rooms,
with the component rewrite in the form the room checks actually hit. -/
theorem api_validate_project_go_eq (project : Project) :
    ∀ (rooms : List Room) (i : ℕ),
      Api.validate_project_go project i rooms =
        ((List.enumFrom i rooms).map (fun p =>
          (Api.validate_room p.2 project).map (fun e =>
            { e with component := some (match e.component with
                | some c => "Room " ++ toString (p.1 + 1) ++ " ("
                    ++ p.2.room_type.value ++ ")" ++ " - " ++ c
                | none => "Room " ++ toString (p.1 + 1) ++ " ("
                    ++ p.2.room_type.value ++ ")") }))).flatten := by
  intro rooms
  induction rooms with
  | nil => intro i; simp [Api.validate_project_go]
  | cons room rest ih =>
      intro i
      simp only [Api.validate_project_go, List.enumFrom_cons, List.map_cons,
        List.flatten_cons, ih (i + 1)]
      congr 1
      apply List.map_congr_left
      intro e he
      obtain ⟨c, hc, hne⟩ := api_component_of_mem room project e he
      simp [Api.addRoomContext, hc, hne]

/-- The two copies of the indexed thermal loop agree. -/
theorem thermal_walls_api_eq_pbc (req : ℤ) (z : ClimateZone) :
    ∀ (walls : List Wall) (i : ℕ),
      Api.check_thermal_walls req z i walls = PBC.check_thermal_walls req z i walls := by
  intro walls
  induction walls with
  | nil => intro i; rfl
  | cons w ws ih =>
      intro i
      simp only [Api.check_thermal_walls, PBC.check_thermal_walls, ih (i + 1)]
      rfl

/-- The two copies of the room validator agree. -/
theorem validate_room_api_eq_pbc (room : Room) (project : Project) :
    Api.validate_room room project = PBC.validate_room room project := by
  unfold Api.validate_room PBC.validate_room
  unfold Api.check_thermal_envelope PBC.check_thermal_envelope
  rw [thermal_walls_api_eq_pbc]
  rfl

/-! ### Claim theorems -/

/-- C1: for every room and project, the R310.1 findings of `validate_room`
are exactly: for a Bedroom with no windows, one finding with message
"Bedroom requires at least one egress window"; for a Bedroom with windows,
one finding citing the 5.7 sq ft threshold and the largest clear opening
formatted to two decimals if and only if no single window reaches
5.7 sq ft of clear opening (areas are never summed across windows); and no
finding at all for a non-Bedroom room. A lone 24in by 24in window formats
as "3.60". -/
theorem egress_check_characterization :
    (∀ (room : Room) (project : Project),
      (PBC.validate_room room project).filter (fun e => e.code == "IRC R310.1") =
        (if room.room_type = RoomType.bedroom then
          (match room.get_all_windows with
           | [] => [{ code := "IRC R310.1", severity := "ERROR",
                      message := "Bedroom requires at least one egress window",
                      component := some "Bedroom" }]
           | w :: ws =>
               if (w :: ws).any (fun x => decide ((57 : ℚ) / 10 ≤ x.clear_opening_sqft))
               then []
               else
                 [{ code := "IRC R310.1", severity := "ERROR",
                    message := "No window meets egress requirement. Required: 5.7 sq ft, Largest found: "
                      ++ fmt2 (ws.foldl (fun m x => max m x.clear_opening_sqft)
                           w.clear_opening_sqft)
                      ++ " sq ft",
                    component := some "Bedroom" }])
         else [])) ∧
    fmt2 (Window.clear_opening_sqft
      { width_inches := 24, height_inches := 24, u_factor := 3 / 10 }) = "3.60" := by
  constructor
  · intro room _
    rw [pbc_filter_egress]
    by_cases h : room.room_type = RoomType.bedroom
    · rw [if_pos h, if_pos h, pbc_egress_of_bedroom room h]
    · rw [if_neg h, if_neg h]
  · have hq : Window.clear_opening_sqft
        { width_inches := 24, height_inches := 24, u_factor := 3 / 10 } = 18 / 5 := by
      norm_num [Window.clear_opening_sqft, Window.area_sqft]
    rw [hq]
    have hfl : (⌊(18 : ℚ) / 5 * (10 : ℚ) ^ 2 + 1 / 2⌋ : ℤ) = 360 := by norm_num
    simp only [fmt2, fmtFixed, hfl]
    rfl

/-- C2: the required R-value table maps zones 1-3 to 13, zone 4 to 15,
zones 5-6 to 20, zones 7-8 to 21, and the thermal-envelope check emits
exactly one finding per exterior wall whose total R-value is strictly
below the requirement, in wall-list order, with component
"Wall #(1-based index) (framing value)"; interior walls and exterior walls
with total R-value equal to or above the requirement produce none. -/
theorem thermal_envelope_characterization :
    (PBC.requiredRValue ClimateZone.zone1 = 13 ∧
     PBC.requiredRValue ClimateZone.zone2 = 13 ∧
     PBC.requiredRValue ClimateZone.zone3 = 13 ∧
     PBC.requiredRValue ClimateZone.zone4 = 15 ∧
     PBC.requiredRValue ClimateZone.zone5 = 20 ∧
     PBC.requiredRValue ClimateZone.zone6 = 20 ∧
     PBC.requiredRValue ClimateZone.zone7 = 21 ∧
     PBC.requiredRValue ClimateZone.zone8 = 21) ∧
    (∀ (room : Room) (project : Project),
      PBC.check_thermal_envelope room project =
        room.walls.enum.filterMap (fun p =>
          if p.2.is_exterior = true ∧
              p.2.total_r_value < (PBC.requiredRValue project.climate_zone : ℚ)
          then some { code := "IECC R402.1", severity := "ERROR",
                      message := "Exterior wall R-value " ++ fmt1 p.2.total_r_value
                        ++ " below required "
                        ++ toString (PBC.requiredRValue project.climate_zone)
                        ++ " for Climate Zone " ++ toString project.climate_zone.value,
                      component := some ("Wall #" ++ toString (p.1 + 1) ++ " ("
                        ++ p.2.framing_type.value ++ ")") }
          else none)) :=
  ⟨⟨rfl, rfl, rfl, rfl, rfl, rfl, rfl, rfl⟩,
   fun room project => pbc_thermal_filterMap _ _ room.walls 0⟩

/-- C5: for every room and project, the R305.1 findings of `validate_room`
are exactly one finding when the ceiling height is strictly below 7 feet
(with the actual height and the 7.0 threshold in the message and the room
type label as component) and none otherwise, so a ceiling of exactly 7.0
feet is compliant. -/
theorem ceiling_height_characterization :
    ∀ (room : Room) (project : Project),
      (PBC.validate_room room project).filter (fun e => e.code == "IRC R305.1") =
        (if room.ceiling_height_feet < 7 then
          [{ code := "IRC R305.1", severity := "ERROR",
             message := "Ceiling height " ++ pyFloatRepr room.ceiling_height_feet
               ++ "ft is below minimum 7.0ft",
             component := some room.room_type.value }]
         else []) := by
  intro room _
  rw [pbc_filter_ceiling]
  unfold PBC.check_ceiling_height
  split
  · simp [pyFloatRepr_seven, String.append_assoc]
  · rfl

/-- C6: for every wall, sheathing and drywall take the gross area
(no deduction for windows), insulation takes the net area (gross minus the
sum of window areas), and gravel is the exterior-only footing-trench
volume in cubic yards. -/
theorem wall_area_quantities :
    ∀ wall : Wall,
      (PBC.calculate_wall_materials wall).sheathing_sqft =
          wall.length_feet * wall.height_feet ∧
      (PBC.calculate_wall_materials wall).drywall_sqft =
          wall.length_feet * wall.height_feet ∧
      (PBC.calculate_wall_materials wall).insulation_sqft = wall.net_area_sqft ∧
      (PBC.calculate_wall_materials wall).insulation_sqft =
          wall.length_feet * wall.height_feet
            - (wall.windows.map Window.area_sqft).sum ∧
      (PBC.calculate_wall_materials wall).gravel_cubic_yards =
          (if wall.is_exterior then wall.length_feet * 2 * (1 / 2) / 27 else 0) := by
  intro wall
  refine ⟨rfl, rfl, rfl, ?_, rfl⟩
  simp [PBC.calculate_wall_materials, Wall.net_area_sqft, Wall.area_sqft]

/-- C10: the material calculators and the room validator duplicated in
`api.py` agree with those of `parametric_building_configurator.py` on
every input. -/
theorem api_configurator_equivalence :
    (∀ wall : Wall,
      Api.calculate_wall_materials wall = PBC.calculate_wall_materials wall) ∧
    (∀ room : Room,
      Api.calculate_room_materials room = PBC.calculate_room_materials room) ∧
    (∀ (room : Room) (project : Project),
      Api.validate_room room project = PBC.validate_room room project) :=
  ⟨fun _ => rfl, fun _ => rfl, validate_room_api_eq_pbc⟩

/-- C3: for every invariant-satisfying wall, the stud count is the floor
of the wall run in inches over the stud spacing, plus one, plus three
plate pieces; stud linear feet is the stud count times the wall height;
the top plate takes twice the wall length and the bottom plate once; and
the spacing is 16 for the 16oc framing types and 24 for the 24oc ones. -/
theorem wall_framing_quantities (wall : Wall) (h : WallInv wall) :
    (PBC.calculate_wall_materials wall).studs_count =
        ⌊wall.length_feet * 12 / (wall.stud_spacing_inches : ℚ)⌋ + 1 + 3 ∧
    (PBC.calculate_wall_materials wall).stud_linear_feet =
        ((PBC.calculate_wall_materials wall).studs_count : ℚ) * wall.height_feet ∧
    (PBC.calculate_wall_materials wall).top_plate_lf = 2 * wall.length_feet ∧
    (PBC.calculate_wall_materials wall).bottom_plate_lf = wall.length_feet ∧
    studSpacingOfFraming FramingType.stud2x4_16oc = 16 ∧
    studSpacingOfFraming FramingType.stud2x6_16oc = 16 ∧
    studSpacingOfFraming FramingType.stud2x4_24oc = 24 ∧
    studSpacingOfFraming FramingType.stud2x6_24oc = 24 := by
  obtain ⟨hlen, -⟩ := h
  have hsp : (0 : ℚ) < (wall.stud_spacing_inches : ℚ) := by
    exact_mod_cast studSpacing_pos wall.framing_type
  have hq : (0 : ℚ) ≤ wall.length_feet * 12 / (wall.stud_spacing_inches : ℚ) :=
    (div_pos (mul_pos hlen (by norm_num : (0 : ℚ) < 12)) hsp).le
  refine ⟨?_, ?_, ?_, rfl, by decide, by decide, by decide, by decide⟩
  · simp [PBC.calculate_wall_materials, pyInt, hq]
  · simp [PBC.calculate_wall_materials]
  · simp [PBC.calculate_wall_materials, mul_comm]

/-- Witness: the 12ft by 8ft 2x6-at-16oc wall satisfies the invariants and
gets 13 studs: floor(144/16) + 1 vertical studs plus 3 plates. -/
theorem wall_framing_quantities_witness :
    WallInv c3Wall ∧ (PBC.calculate_wall_materials c3Wall).studs_count = 13 := by
  have hinv : WallInv c3Wall := by
    refine ⟨by norm_num [c3Wall], by norm_num [c3Wall], by norm_num [c3Wall], ?_, ?_⟩
    · intro l hl; simp [c3Wall] at hl
    · intro win hw; simp [c3Wall] at hw
  refine ⟨hinv, ?_⟩
  have h := (wall_framing_quantities c3Wall hinv).1
  have h1 : c3Wall.length_feet = 12 := rfl
  have h2 : c3Wall.stud_spacing_inches = 16 := rfl
  rw [h, h1, h2]
  norm_num

/-- C4: room materials are the field-by-field sums of the wall materials
of the room's walls, and project materials are the field-by-field sums of
the room materials of the project's rooms, with 0 as the identity for
every field; the `Materials` record carries exactly the eight quantity
fields. -/
theorem materials_aggregation_additive :
    (∀ room : Room,
      (PBC.calculate_room_materials room).studs_count =
          (room.walls.map (fun w => (PBC.calculate_wall_materials w).studs_count)).sum ∧
      (PBC.calculate_room_materials room).stud_linear_feet =
          (room.walls.map (fun w => (PBC.calculate_wall_materials w).stud_linear_feet)).sum ∧
      (PBC.calculate_room_materials room).top_plate_lf =
          (room.walls.map (fun w => (PBC.calculate_wall_materials w).top_plate_lf)).sum ∧
      (PBC.calculate_room_materials room).bottom_plate_lf =
          (room.walls.map (fun w => (PBC.calculate_wall_materials w).bottom_plate_lf)).sum ∧
      (PBC.calculate_room_materials room).sheathing_sqft =
          (room.walls.map (fun w => (PBC.calculate_wall_materials w).sheathing_sqft)).sum ∧
      (PBC.calculate_room_materials room).drywall_sqft =
          (room.walls.map (fun w => (PBC.calculate_wall_materials w).drywall_sqft)).sum ∧
      (PBC.calculate_room_materials room).insulation_sqft =
          (room.walls.map (fun w => (PBC.calculate_wall_materials w).insulation_sqft)).sum ∧
      (PBC.calculate_room_materials room).gravel_cubic_yards =
          (room.walls.map (fun w => (PBC.calculate_wall_materials w).gravel_cubic_yards)).sum) ∧
    (∀ project : Project,
      (Api.calculate_project_materials project).studs_count =
          (project.rooms.map (fun r => (Api.calculate_room_materials r).studs_count)).sum ∧
      (Api.calculate_project_materials project).stud_linear_feet =
          (project.rooms.map (fun r => (Api.calculate_room_materials r).stud_linear_feet)).sum ∧
      (Api.calculate_project_materials project).top_plate_lf =
          (project.rooms.map (fun r => (Api.calculate_room_materials r).top_plate_lf)).sum ∧
      (Api.calculate_project_materials project).bottom_plate_lf =
          (project.rooms.map (fun r => (Api.calculate_room_materials r).bottom_plate_lf)).sum ∧
      (Api.calculate_project_materials project).sheathing_sqft =
          (project.rooms.map (fun r => (Api.calculate_room_materials r).sheathing_sqft)).sum ∧
      (Api.calculate_project_materials project).drywall_sqft =
          (project.rooms.map (fun r => (Api.calculate_room_materials r).drywall_sqft)).sum ∧
      (Api.calculate_project_materials project).insulation_sqft =
          (project.rooms.map (fun r => (Api.calculate_room_materials r).insulation_sqft)).sum ∧
      (Api.calculate_project_materials project).gravel_cubic_yards =
          (project.rooms.map (fun r => (Api.calculate_room_materials r).gravel_cubic_yards)).sum) := by
  constructor
  · intro room
    unfold PBC.calculate_room_materials
    rw [foldl_add_msum]
    obtain ⟨h1, h2, h3, h4, h5, h6, h7, h8⟩ :=
      msum_fields (room.walls.map PBC.calculate_wall_materials)
    simp [Materials.add, Materials.zero, h1, h2, h3, h4, h5, h6, h7, h8,
      List.map_map, Function.comp_def]
  · intro project
    unfold Api.calculate_project_materials
    rw [foldl_add_msum]
    obtain ⟨h1, h2, h3, h4, h5, h6, h7, h8⟩ :=
      msum_fields (project.rooms.map Api.calculate_room_materials)
    simp [Materials.add, Materials.zero, h1, h2, h3, h4, h5, h6, h7, h8,
      List.map_map, Function.comp_def]

/-- C7: `validate_project` maps over rooms in order, validates each room
(the room validator being the concatenation of the ceiling, conditional
egress and thermal checks, in that fixed order), rewrites each finding's
component to "Room (1-based index) (room type)" followed by " - " and the
original component when one was set (room label alone otherwise), and
concatenates all rooms' findings preserving per-room order. -/
theorem project_validation_structure :
    ∀ project : Project,
      (Api.validate_project project =
        (project.rooms.enum.map (fun p =>
          (Api.validate_room p.2 project).map (fun e =>
            { e with component := some (match e.component with
                | some c => "Room " ++ toString (p.1 + 1) ++ " ("
                    ++ p.2.room_type.value ++ ")" ++ " - " ++ c
                | none => "Room " ++ toString (p.1 + 1) ++ " ("
                    ++ p.2.room_type.value ++ ")") }))).flatten) ∧
      (∀ room : Room,
        Api.validate_room room project =
          Api.check_ceiling_height room
            ++ (if room.room_type = RoomType.bedroom then Api.check_bedroom_egress room
                else [])
            ++ Api.check_thermal_envelope room project) :=
  fun project => ⟨api_validate_project_go_eq project project.rooms 0, fun _ => rfl⟩

/-- The demonstration project satisfies all Data Model invariants. -/
theorem c8Project_invariant : ProjectInv c8Project := by
  constructor
  · simp [c8Project]
  · intro r hr
    simp [c8Project] at hr
    subst hr
    refine ⟨by norm_num [c8Room], by simp [c8Room], ?_⟩
    intro w hw
    simp [c8Room] at hw
    subst hw
    refine ⟨by norm_num [c8Wall], by norm_num [c8Wall], by norm_num [c8Wall], ?_, ?_⟩
    · intro l hl; simp [c8Wall] at hl
    · intro win hw2; simp [c8Wall] at hw2

/-- The demonstration project draws no findings. -/
theorem c8Project_validates_clean : Api.validate_project c8Project = [] := by
  have h8 : ¬(c8Room.ceiling_height_feet < 7) := by norm_num [c8Room]
  have hceil : Api.check_ceiling_height c8Room = [] := by
    unfold Api.check_ceiling_height
    rw [if_neg h8]
  have hth : Api.check_thermal_envelope c8Room c8Project = [] := by
    simp [Api.check_thermal_envelope, Api.check_thermal_walls, c8Room, c8Wall]
  have hbed : ¬(c8Room.room_type = RoomType.bedroom) := by simp [c8Room]
  have hroom : Api.validate_room c8Room c8Project = [] := by
    unfold Api.validate_room
    rw [hceil, hth, if_neg hbed]
    rfl
  have hrooms : c8Project.rooms = [c8Room] := rfl
  unfold Api.validate_project
  rw [hrooms]
  simp only [Api.validate_project_go]
  rw [hroom]
  simp

/-- C8: on every invariant-satisfying project both core operations are
total functions of their input — the material calculation and the
validation each return a value, and the findings list can be empty, as on
the concrete compliant project. -/
theorem core_operations_total :
    (∀ project : Project, ProjectInv project →
      (∃ m : Materials, Api.calculate_project_materials project = m) ∧
      (∃ errs : List ValidationError, Api.validate_project project = errs)) ∧
    (∃ p : Project, ProjectInv p ∧ Api.validate_project p = []) := by
  constructor
  · intro project _
    exact ⟨⟨_, rfl⟩, ⟨_, rfl⟩⟩
  · exact ⟨c8Project, c8Project_invariant, c8Project_validates_clean⟩

/-- Witness: the concrete project satisfies the invariants, and the two
core operations return values on it. -/
theorem core_operations_total_witness :
    ProjectInv c8Project ∧
      ((∃ m : Materials, Api.calculate_project_materials c8Project = m) ∧
       (∃ errs : List ValidationError, Api.validate_project c8Project = errs)) :=
  ⟨c8Project_invariant, core_operations_total.1 c8Project c8Project_invariant⟩

/-- C9: a wall can satisfy every stated Data Model invariant while its
windows' total area exceeds its gross area, making the derived net area
and hence the insulation quantity strictly negative -- nothing in
construction or calculation prevents it. -/
theorem oversized_window_negative_insulation :
    WallInv c9Wall ∧ c9Wall.net_area_sqft < 0 ∧
      (PBC.calculate_wall_materials c9Wall).insulation_sqft < 0 := by
  have hnet : c9Wall.net_area_sqft < 0 := by
    norm_num [Wall.net_area_sqft, Wall.area_sqft, c9Wall, c9Window, Window.area_sqft]
  have hinv : WallInv c9Wall := by
    refine ⟨by norm_num [c9Wall], by norm_num [c9Wall], by norm_num [c9Wall], ?_, ?_⟩
    · intro l hl; simp [c9Wall] at hl
    · intro win hw
      simp [c9Wall] at hw
      subst hw
      norm_num [WindowInv, c9Window]
  exact ⟨hinv, hnet, hnet⟩
